import Mathlib

/-!
Verification of the render-graph compiler and execution engine of the
`vulkan-renderer` repository, shallowly embedded in Lean 4.

The embedding follows `src/vulkan-renderer/render_graph.cpp` and
`src/vulkan-renderer/wrapper/pipelines/pipeline_builder.cpp`.  Vulkan
handles, formats and enum codes are modelled as natural numbers; Vulkan
enumerations that the code inspects are modelled as inductive types.
-/

namespace VkRender

/-- Buffer usage of a `BufferResource` (`BufferUsage` in the source). -/
inductive BufferUsage
  | VERTEX_BUFFER
  | INDEX_BUFFER
  | UNIFORM_BUFFER
  deriving DecidableEq, Repr

/-- Texture usage of a `TextureResource` (`TextureUsage` in the source).
`NORMAL` stands for any usage other than the two that
`RenderGraph::build_render_pass` treats specially (its `default:` case). -/
inductive TextureUsage
  | BACK_BUFFER
  | DEPTH_STENCIL_BUFFER
  | NORMAL
  deriving DecidableEq, Repr

/-- What the render graph knows about a registered `RenderResource`:
either a `BufferResource` (with its usage and whether its physical
backing buffer `m_physical->m_buffer` is currently non-null) or a
`TextureResource` (with its usage and format). -/
inductive ResourceInfo
  | buffer (usage : BufferUsage) (hasPhysicalBuffer : Bool)
  | texture (usage : TextureUsage) (format : Nat)
  deriving DecidableEq, Repr

/-- A `RenderStage`/`GraphicsStage` of the render graph: the ordered
read and write declarations (`m_reads`, `m_writes`, lists of resource
ids), the vertex-buffer binding map `m_buffer_bindings` (an assoc list,
resource id to binding index), the `m_clears_screen` flag, and whether
the stage is a `GraphicsStage` (`stage->as<GraphicsStage>() != nullptr`). -/
structure Stage where
  reads : List Nat := []
  writes : List Nat := []
  buffer_bindings : List (Nat × Nat) := []
  clears_screen : Bool := false
  is_graphics : Bool := true
  deriving DecidableEq, Repr

instance : Inhabited Stage := ⟨{}⟩

/-- The declarative part of a `RenderGraph`: the registered stages
(`m_stages`, indexed by position) and the registered resources with
their kind information (resource id, info). -/
structure RenderGraphModel where
  stages : List Stage := []
  resources : List (Nat × ResourceInfo) := []
  deriving DecidableEq, Repr

/-- The stage stored at index `i` of `m_stages`. -/
def stageAt (g : RenderGraphModel) (i : Nat) : Stage :=
  g.stages.getD i default

/-- Kind information of resource `r`, if it is registered. -/
def resInfo (g : RenderGraphModel) (r : Nat) : Option ResourceInfo :=
  (g.resources.find? (fun p => p.1 == r)).map (·.2)

/-- The helper map built at the start of `RenderGraph::compile`: for a
resource `r`, the list of (indices of) stages that write `r`, in stage
registration order, one entry per occurrence of `r` in a stage's
`m_writes`. -/
def writersOf (g : RenderGraphModel) (r : Nat) : List Nat :=
  (List.range g.stages.length).flatMap fun i =>
    (stageAt g i).writes.filterMap fun w => if w = r then some i else none

/-- The recursive post-order depth-first search of `RenderGraph::compile`,
processing a worklist of stages.  The C++ lambda `dfs` recurses, for every
resource the stage reads, into every writer of that resource, then pushes
the stage onto `m_stage_stack`; there is no visited-marking.  The `fuel`
argument bounds the amount of work (it decreases on every recursive
call): the C++ recursion terminates exactly when some finite fuel
suffices, and `dfsList` returns `none` for every fuel exactly when the
C++ recursion never terminates.  On success the emitted order is the
order `dfs` pushes stages onto `m_stage_stack`. -/
def dfsList (g : RenderGraphModel) : Nat → List Nat → Option (List Nat)
  | _, [] => some []
  | 0, _ :: _ => none
  | fuel + 1, s :: ss =>
    match dfsList g fuel ((stageAt g s).reads.flatMap (writersOf g)) with
    | none => none
    | some l1 =>
      match dfsList g fuel ss with
      | none => none
      | some l2 => some (l1 ++ [s] ++ l2)

/-- The stage order appended to `m_stage_stack` by one call of
`RenderGraph::compile(target)`: a DFS from every writer of `target`. -/
def compileOrder (g : RenderGraphModel) (target : Nat) (fuel : Nat) : Option (List Nat) :=
  dfsList g fuel (writersOf g target)

/-- The `m_stage_stack` after `RenderGraph::compile(target)`, starting from the
member's previous contents `stack`: `compile` only ever appends to
`m_stage_stack` (via `push_back` inside `dfs`); it never clears it. -/
def compileStack (g : RenderGraphModel) (target : Nat) (fuel : Nat)
    (stack : List Nat) : Option (List Nat) :=
  (compileOrder g target fuel).map (stack ++ ·)

/-- The claim's ordering property of an execution order `l`: for every
position `i`, every resource read by the stage at position `i`, and every
writer of that resource, the writer occurs at an earlier position. -/
def validOrder (g : RenderGraphModel) (l : List Nat) : Prop :=
  ∀ i, (h : i < l.length) → ∀ r ∈ (stageAt g (l.get ⟨i, h⟩)).reads,
    ∀ w ∈ writersOf g r, w ∈ l.take i

/-- Dependency test between stages: `dependsB g s w = true` iff stage `s`
reads some resource that stage `w` writes. -/
def dependsB (g : RenderGraphModel) (s w : Nat) : Bool :=
  (stageAt g s).reads.any fun r => (writersOf g r).contains w

/-- The pass/resource graph is acyclic: the write-to-read dependency
relation admits a rank function (the standard topological-order
characterisation of a finite DAG). -/
def Acyclic (g : RenderGraphModel) : Prop :=
  ∃ rank : Nat → Nat, ∀ s w, dependsB g s w = true → rank w < rank s

end VkRender

namespace VkRender

/-! ### Vertex attributes of a buffer resource (`BufferResource`) -/

/-- A `VkVertexInputAttributeDescription` as filled in by
`BufferResource::add_vertex_attribute` (the `binding` field is filled in
later, by `RenderGraph::build_graphics_pipeline`). -/
structure VkVertexInputAttributeDescription where
  location : Nat := 0
  binding : Nat := 0
  format : Nat := 0
  offset : Nat := 0
  deriving DecidableEq, Repr

/-- A `wrapper::Buffer` as created by `RenderGraph::update_dynamic_buffers`.
The `id` field models object identity of the freshly constructed buffer
(each construction yields a distinct object). -/
structure WBuffer where
  id : Nat
  size : Nat
  data : List Nat
  usage_flags : Nat
  deriving DecidableEq, Repr

/-- The `VK_BUFFER_USAGE_VERTEX_BUFFER_BIT` (numeric code). -/
def VK_BUFFER_USAGE_VERTEX_BUFFER_BIT : Nat := 128

/-- The `VK_BUFFER_USAGE_INDEX_BUFFER_BIT` (numeric code). -/
def VK_BUFFER_USAGE_INDEX_BUFFER_BIT : Nat := 64

/-- A `PhysicalBuffer`: owns the (possibly not yet created) wrapper
buffer `m_buffer`. -/
structure PhysicalBuffer where
  buffer : Option WBuffer := none
  deriving DecidableEq, Repr

/-- A `BufferResource` of the render graph: usage, staged data bytes and
size (`m_data`, `m_data_size`), the dirty flag `m_data_upload_needed`,
the vertex attributes accumulated by `add_vertex_attribute`, and the
physical backing. -/
structure BufferResource where
  usage : BufferUsage := BufferUsage.VERTEX_BUFFER
  data : List Nat := []
  data_size : Nat := 0
  data_upload_needed : Bool := false
  vertex_attributes : List VkVertexInputAttributeDescription := []
  physical : PhysicalBuffer := {}
  deriving DecidableEq, Repr

/-- The `BufferResource::add_vertex_attribute(format, offset)`: pushes a new
attribute whose `location` is the current number of attributes. -/
def add_vertex_attribute (r : BufferResource) (format offset : Nat) : BufferResource :=
  { r with vertex_attributes := r.vertex_attributes ++
      [{ location := r.vertex_attributes.length, format := format, offset := offset }] }

end VkRender

namespace VkRender

/-! ### Claim theorems (first batch) -/

/-- C10: `BufferResource::add_vertex_attribute` assigns the new
attribute's shader location to the number of attributes previously
added; after n calls starting from a resource with no attributes, the
attributes carry locations 0..n-1 in insertion order, with the given
formats and offsets; the caller never supplies a location. -/
theorem add_vertex_attribute_locations (calls : List (Nat × Nat)) (r0 : BufferResource)
    (h0 : r0.vertex_attributes = []) :
    ((calls.foldl (fun r c => add_vertex_attribute r c.1 c.2) r0).vertex_attributes.map
        (·.location)) = List.range calls.length ∧
    ((calls.foldl (fun r c => add_vertex_attribute r c.1 c.2) r0).vertex_attributes.map
        (fun a => (a.format, a.offset))) = calls := by
  suffices h : ∀ (cs : List (Nat × Nat)) (r : BufferResource) (n : Nat),
      r.vertex_attributes.map (·.location) = List.range n →
      r.vertex_attributes.length = n →
      ((cs.foldl (fun r c => add_vertex_attribute r c.1 c.2) r).vertex_attributes.map
          (·.location)) = List.range (n + cs.length) ∧
      ((cs.foldl (fun r c => add_vertex_attribute r c.1 c.2) r).vertex_attributes.map
          (fun a => (a.format, a.offset))) =
        r.vertex_attributes.map (fun a => (a.format, a.offset)) ++ cs by
    have := h calls r0 0 (by simp [h0]) (by simp [h0])
    simpa [h0] using this
  intro cs
  induction cs with
  | nil => intro r n h1 h2; simpa using h1
  | cons c cs ih =>
    intro r n h1 h2
    have hlen : (add_vertex_attribute r c.1 c.2).vertex_attributes.length = n + 1 := by
      simp [add_vertex_attribute, h2]
    have hloc : (add_vertex_attribute r c.1 c.2).vertex_attributes.map (·.location) =
        List.range (n + 1) := by
      simp [add_vertex_attribute, h1, h2, List.range_succ]
    have := ih (add_vertex_attribute r c.1 c.2) (n + 1) hloc hlen
    refine ⟨?_, ?_⟩
    · rw [List.foldl_cons]
      rw [this.1]
      congr 1
      simp only [List.length_cons]
      omega
    · rw [List.foldl_cons]
      rw [this.2]
      simp [add_vertex_attribute]

/-- Witness for C10 at a concrete input. -/
theorem add_vertex_attribute_locations_witness :
    ({ } : BufferResource).vertex_attributes = [] ∧
    (([(5, 0), (6, 12), (7, 24)] : List (Nat × Nat)).foldl
        (fun r c => add_vertex_attribute r c.1 c.2) { }).vertex_attributes.map
        (·.location) = [0, 1, 2] :=
  ⟨rfl, by
    have h := add_vertex_attribute_locations [(5, 0), (6, 12), (7, 24)] { } rfl
    simpa [List.range] using h.1⟩

end VkRender

namespace VkRender

/-! ### Render-pass attachment descriptions (`RenderGraph::build_render_pass`) -/

/-- The `VkAttachmentLoadOp`. -/
inductive LoadOp
  | CLEAR
  | LOAD
  | DONT_CARE
  deriving DecidableEq, Repr

/-- The `VkAttachmentStoreOp`. -/
inductive StoreOp
  | STORE
  | DONT_CARE
  deriving DecidableEq, Repr

/-- The `VkImageLayout` values used by `build_render_pass`. -/
inductive ImgLayout
  | UNDEFINED
  | PRESENT_SRC_KHR
  | COLOR_ATTACHMENT_OPTIMAL
  | DEPTH_STENCIL_ATTACHMENT_OPTIMAL
  deriving DecidableEq, Repr

/-- The fields of a `VkAttachmentDescription` that `build_render_pass`
fills in. -/
structure VkAttachmentDescription where
  format : Nat
  loadOp : LoadOp
  storeOp : StoreOp
  stencilLoadOp : LoadOp
  stencilStoreOp : StoreOp
  initialLayout : ImgLayout
  finalLayout : ImgLayout
  deriving DecidableEq, Repr

/-- The attachment description that `RenderGraph::build_render_pass`
builds for one texture resource written by a stage, given the stage's
`m_clears_screen` flag and the texture's usage and format: the struct is
initialised with `loadOp = clears ? CLEAR : DONT_CARE`,
`storeOp = STORE`, `initialLayout = UNDEFINED`, then patched by usage in
the `switch`. -/
def attachment_description (clears_screen : Bool) (usage : TextureUsage)
    (format : Nat) : VkAttachmentDescription :=
  let base : VkAttachmentDescription :=
    { format := format
      loadOp := if clears_screen then LoadOp.CLEAR else LoadOp.DONT_CARE
      storeOp := StoreOp.STORE
      stencilLoadOp := LoadOp.DONT_CARE
      stencilStoreOp := StoreOp.DONT_CARE
      initialLayout := ImgLayout.UNDEFINED
      finalLayout := ImgLayout.UNDEFINED }
  match usage with
  | TextureUsage.BACK_BUFFER =>
    let base :=
      if !clears_screen then
        { base with initialLayout := ImgLayout.PRESENT_SRC_KHR, loadOp := LoadOp.LOAD }
      else base
    { base with finalLayout := ImgLayout.PRESENT_SRC_KHR }
  | TextureUsage.DEPTH_STENCIL_BUFFER =>
    { base with finalLayout := ImgLayout.DEPTH_STENCIL_ATTACHMENT_OPTIMAL }
  | TextureUsage.NORMAL =>
    { base with finalLayout := ImgLayout.COLOR_ATTACHMENT_OPTIMAL }

/-- The attachment list built by `build_render_pass` for stage `s`: one
attachment per texture resource among the stage's writes, in write
order (non-texture writes are skipped by the `continue`). -/
def render_pass_attachments (g : RenderGraphModel) (s : Nat) :
    List VkAttachmentDescription :=
  (stageAt g s).writes.filterMap fun r =>
    match resInfo g r with
    | some (ResourceInfo.texture usage format) =>
      some (attachment_description (stageAt g s).clears_screen usage format)
    | _ => none

end VkRender

namespace VkRender

/-- C6: for every texture resource a pass writes, the attachment
description built at compile time has load-op CLEAR if the pass clears
the screen, otherwise LOAD for a back-buffer texture and DONT_CARE for
other usages; store-op STORE; and final layout PRESENT_SRC for a
back-buffer texture, depth-stencil-attachment-optimal for a
depth-stencil texture, and color-attachment-optimal otherwise. -/
theorem attachment_description_ops (g : RenderGraphModel) (s r : Nat)
    (usage : TextureUsage) (format : Nat)
    (hres : resInfo g r = some (ResourceInfo.texture usage format))
    (hw : r ∈ (stageAt g s).writes) :
    attachment_description (stageAt g s).clears_screen usage format ∈
      render_pass_attachments g s ∧
    (attachment_description (stageAt g s).clears_screen usage format).loadOp =
      (if (stageAt g s).clears_screen then LoadOp.CLEAR
       else if usage = TextureUsage.BACK_BUFFER then LoadOp.LOAD
       else LoadOp.DONT_CARE) ∧
    (attachment_description (stageAt g s).clears_screen usage format).storeOp =
      StoreOp.STORE ∧
    (attachment_description (stageAt g s).clears_screen usage format).finalLayout =
      (match usage with
       | TextureUsage.BACK_BUFFER => ImgLayout.PRESENT_SRC_KHR
       | TextureUsage.DEPTH_STENCIL_BUFFER => ImgLayout.DEPTH_STENCIL_ATTACHMENT_OPTIMAL
       | TextureUsage.NORMAL => ImgLayout.COLOR_ATTACHMENT_OPTIMAL) := by
  refine ⟨?_, ?_, ?_, ?_⟩
  · exact List.mem_filterMap.mpr ⟨r, hw, by rw [hres]⟩
  · cases usage <;> cases h : (stageAt g s).clears_screen <;>
      simp [attachment_description, h]
  · cases usage <;> cases h : (stageAt g s).clears_screen <;>
      simp [attachment_description, h]
  · cases usage <;> cases h : (stageAt g s).clears_screen <;>
      simp [attachment_description, h]

/-- Concrete graph for the C6 witness: one graphics stage that clears
nothing and writes a back-buffer texture (id 1) and a depth-stencil
texture (id 2). -/
def gAttach : RenderGraphModel :=
  { stages := [{ writes := [1, 2], clears_screen := false }]
    resources := [(1, ResourceInfo.texture TextureUsage.BACK_BUFFER 44),
                  (2, ResourceInfo.texture TextureUsage.DEPTH_STENCIL_BUFFER 126)] }

/-- Witness for C6 at a concrete input: the back-buffer attachment of a
non-clearing pass gets load-op LOAD, store-op STORE and final layout
PRESENT_SRC. -/
theorem attachment_description_ops_witness :
    resInfo gAttach 1 = some (ResourceInfo.texture TextureUsage.BACK_BUFFER 44) ∧
    1 ∈ (stageAt gAttach 0).writes ∧
    (attachment_description (stageAt gAttach 0).clears_screen TextureUsage.BACK_BUFFER 44).loadOp
      = LoadOp.LOAD ∧
    (attachment_description (stageAt gAttach 0).clears_screen TextureUsage.BACK_BUFFER 44).storeOp
      = StoreOp.STORE ∧
    (attachment_description (stageAt gAttach 0).clears_screen TextureUsage.BACK_BUFFER 44).finalLayout
      = ImgLayout.PRESENT_SRC_KHR := by
  have h := attachment_description_ops gAttach 0 1 TextureUsage.BACK_BUFFER 44
    (by decide) (by decide)
  refine ⟨by decide, by decide, ?_, h.2.2.1, ?_⟩
  · rw [h.2.1]; decide
  · rw [h.2.2.2]

end VkRender

namespace VkRender

/-! ### `GraphicsPipelineBuilder` (`wrapper/pipelines/pipeline_builder.cpp`)

State-create-info structs are modelled with the fields the builder code
actually writes; float-valued fields that only ever hold literal
constants (`lineWidth`, `minSampleShading`) are represented by a natural
number code (1 stands for `1.0f`, 0 for zero-initialised). -/

/-- The `VkPipelineVertexInputStateCreateInfo` (counts filled by `build`). -/
structure VertexInputSCI where
  vertexBindingDescriptionCount : Nat := 0
  vertexAttributeDescriptionCount : Nat := 0
  deriving DecidableEq, Repr

/-- The `VkPipelineInputAssemblyStateCreateInfo` (topology as a code:
3 = `VK_PRIMITIVE_TOPOLOGY_TRIANGLE_LIST`). -/
structure InputAssemblySCI where
  topology : Nat := 0
  primitiveRestartEnable : Bool := false
  deriving DecidableEq, Repr

/-- The `VkPipelineTessellationStateCreateInfo`. -/
structure TessellationSCI where
  patchControlPoints : Nat := 0
  deriving DecidableEq, Repr

/-- The `VkPipelineViewportStateCreateInfo` (counts filled by `build`). -/
structure ViewportSCI where
  viewportCount : Nat := 0
  scissorCount : Nat := 0
  deriving DecidableEq, Repr

/-- The `VkPipelineRasterizationStateCreateInfo` (modes as numeric codes). -/
structure RasterizationSCI where
  polygonMode : Nat := 0
  cullMode : Nat := 0
  frontFace : Nat := 0
  lineWidth : Nat := 0
  deriving DecidableEq, Repr

/-- The `VkPipelineMultisampleStateCreateInfo`. -/
structure MultisampleSCI where
  rasterizationSamples : Nat := 0
  sampleShadingEnable : Bool := false
  minSampleShading : Nat := 0
  deriving DecidableEq, Repr

/-- The `VkPipelineDepthStencilStateCreateInfo` (set wholesale via
`set_depth_stencil`). -/
structure DepthStencilSCI where
  depthTestEnable : Bool := false
  depthWriteEnable : Bool := false
  depthCompareOp : Nat := 0
  deriving DecidableEq, Repr

/-- The `VkPipelineColorBlendStateCreateInfo` (set wholesale via
`set_color_blend`). -/
structure ColorBlendSCI where
  attachmentCount : Nat := 0
  deriving DecidableEq, Repr

/-- The `VkPipelineDynamicStateCreateInfo` (count filled by `build`). -/
structure DynamicStateSCI where
  dynamicStateCount : Nat := 0
  deriving DecidableEq, Repr

/-- The `VkPipelineRenderingCreateInfo` (dynamic rendering; filled by `build`). -/
structure PipelineRenderingCI where
  colorAttachmentCount : Nat := 0
  depthAttachmentFormat : Nat := 0
  stencilAttachmentFormat : Nat := 0
  deriving DecidableEq, Repr

/-- The member state of `GraphicsPipelineBuilder` (field names follow the
`m_` members of the class; handles, formats, shader stages, viewports,
scissors, descriptions and ranges are opaque numeric codes, with 0 for
`VK_NULL_HANDLE` / `VK_FORMAT_UNDEFINED`). -/
structure GraphicsPipelineBuilder where
  swapchain_img_format : Nat := 0
  depth_attachment_format : Nat := 0
  stencil_attachment_format : Nat := 0
  pipeline_rendering_ci : PipelineRenderingCI := {}
  vertex_input_sci : VertexInputSCI := {}
  input_assembly_sci : InputAssemblySCI := {}
  tesselation_sci : TessellationSCI := {}
  viewport_sci : ViewportSCI := {}
  rasterization_sci : RasterizationSCI := {}
  multisample_sci : MultisampleSCI := {}
  depth_stencil_sci : DepthStencilSCI := {}
  color_blend_sci : ColorBlendSCI := {}
  dynamic_states_sci : DynamicStateSCI := {}
  pipeline_layout : Nat := 0
  dynamic_states : List Nat := []
  viewports : List Nat := []
  scissors : List Nat := []
  shader_stages : List Nat := []
  vertex_input_binding_descriptions : List Nat := []
  vertex_input_attribute_descriptions : List Nat := []
  color_blend_attachment_states : List Nat := []
  push_constant_ranges : List Nat := []
  descriptor_set_layout : Nat := 0
  deriving DecidableEq, Repr

/-- The `VK_PRIMITIVE_TOPOLOGY_TRIANGLE_LIST` (numeric code). -/
def VK_PRIMITIVE_TOPOLOGY_TRIANGLE_LIST : Nat := 3

/-- The `VK_POLYGON_MODE_FILL` (numeric code, 0 in Vulkan). -/
def VK_POLYGON_MODE_FILL : Nat := 0

/-- The `VK_CULL_MODE_BACK_BIT` (numeric code). -/
def VK_CULL_MODE_BACK_BIT : Nat := 2

/-- The `VK_FRONT_FACE_CLOCKWISE` (numeric code). -/
def VK_FRONT_FACE_CLOCKWISE : Nat := 1

/-- The `GraphicsPipelineBuilder::reset()`, exactly the assignments of the
source: it resets the formats, the pipeline layout, the vertex
binding/attribute description lists, the viewports, scissors and dynamic
state lists, and the state-create-info structs — and touches nothing
else (in particular it does not touch `m_shader_stages`,
`m_color_blend_attachment_states`, `m_push_constant_ranges` or
`m_descriptor_set_layout`). -/
def GraphicsPipelineBuilder.reset (b : GraphicsPipelineBuilder) : GraphicsPipelineBuilder :=
  { b with
    swapchain_img_format := 0
    depth_attachment_format := 0
    stencil_attachment_format := 0
    pipeline_layout := 0
    vertex_input_binding_descriptions := []
    vertex_input_attribute_descriptions := []
    vertex_input_sci := {}
    input_assembly_sci :=
      { topology := VK_PRIMITIVE_TOPOLOGY_TRIANGLE_LIST, primitiveRestartEnable := false }
    tesselation_sci := {}
    viewports := []
    scissors := []
    viewport_sci := {}
    rasterization_sci :=
      { polygonMode := VK_POLYGON_MODE_FILL, cullMode := VK_CULL_MODE_BACK_BIT
        frontFace := VK_FRONT_FACE_CLOCKWISE, lineWidth := 1 }
    multisample_sci :=
      { rasterizationSamples := 1, sampleShadingEnable := false, minSampleShading := 1 }
    depth_stencil_sci := {}
    color_blend_sci := {}
    dynamic_states := []
    dynamic_states_sci := {} }

/-- The builder state immediately after construction: all members take
their `{}` member initialisers and then the constructor calls `reset()`. -/
def GraphicsPipelineBuilder.init : GraphicsPipelineBuilder :=
  GraphicsPipelineBuilder.reset {}

/-- The data of the `GraphicsPipeline` object that `build` creates
(the fields of the create info that come from builder state). -/
structure GraphicsPipeline where
  shader_stages : List Nat
  pipeline_layout : Nat
  rendering_ci : PipelineRenderingCI
  name : String
  deriving DecidableEq, Repr

/-- The programmer errors that the `assert` statements of
`GraphicsPipelineBuilder::build` raise, in source order. -/
inductive BuilderError
  | emptyName
  | noVertexBindings
  | noVertexAttributes
  | noViewports
  | noScissors
  | nullPipelineLayout
  deriving DecidableEq, Repr

/-- The `GraphicsPipelineBuilder::build(name)`: the asserts (modelled as
errors), the state-create-info updates and the pipeline creation, in
source order; on success it returns the new pipeline together with the
builder state after the final `reset()`. -/
def GraphicsPipelineBuilder.build (b : GraphicsPipelineBuilder) (name : String) :
    Except BuilderError (GraphicsPipeline × GraphicsPipelineBuilder) :=
  if name = "" then Except.error BuilderError.emptyName
  else if b.vertex_input_binding_descriptions = [] then
    Except.error BuilderError.noVertexBindings
  else if b.vertex_input_attribute_descriptions = [] then
    Except.error BuilderError.noVertexAttributes
  else
    let b := { b with vertex_input_sci :=
      { vertexBindingDescriptionCount := b.vertex_input_binding_descriptions.length
        vertexAttributeDescriptionCount := b.vertex_input_attribute_descriptions.length } }
    if b.viewports = [] then Except.error BuilderError.noViewports
    else if b.scissors = [] then Except.error BuilderError.noScissors
    else
      let b := { b with viewport_sci :=
        { viewportCount := b.viewports.length, scissorCount := b.scissors.length } }
      let b := if b.dynamic_states.isEmpty then b
        else { b with dynamic_states_sci := { dynamicStateCount := b.dynamic_states.length } }
      let b := { b with pipeline_rendering_ci :=
        { colorAttachmentCount := 1
          depthAttachmentFormat := b.depth_attachment_format
          stencilAttachmentFormat := b.stencil_attachment_format } }
      if b.pipeline_layout = 0 then Except.error BuilderError.nullPipelineLayout
      else
        Except.ok
          ({ shader_stages := b.shader_stages
             pipeline_layout := b.pipeline_layout
             rendering_ci := b.pipeline_rendering_ci
             name := name },
           b.reset)

end VkRender

namespace VkRender

/-- The builder state left behind by a successful `build`, if any. -/
def builderAfterBuild (b : GraphicsPipelineBuilder) (name : String) :
    Option GraphicsPipelineBuilder :=
  (b.build name).toOption.map (·.2)

/-- C8: `GraphicsPipelineBuilder::build(name)` raises immediately —
returning an error and never reaching pipeline creation — when called
with an empty name, or with no vertex input binding, no vertex input
attribute, no viewport, no scissor, or a null pipeline layout. -/
theorem build_rejects_missing_state (b : GraphicsPipelineBuilder) (name : String)
    (h : name = "" ∨ b.vertex_input_binding_descriptions = [] ∨
      b.vertex_input_attribute_descriptions = [] ∨ b.viewports = [] ∨
      b.scissors = [] ∨ b.pipeline_layout = 0) :
    ∃ e, b.build name = Except.error e := by
  by_cases h1 : name = ""
  · exact ⟨BuilderError.emptyName, by simp [GraphicsPipelineBuilder.build, h1]⟩
  by_cases h2 : b.vertex_input_binding_descriptions = []
  · exact ⟨BuilderError.noVertexBindings, by simp [GraphicsPipelineBuilder.build, h1, h2]⟩
  by_cases h3 : b.vertex_input_attribute_descriptions = []
  · exact ⟨BuilderError.noVertexAttributes,
      by simp [GraphicsPipelineBuilder.build, h1, h2, h3]⟩
  by_cases h4 : b.viewports = []
  · exact ⟨BuilderError.noViewports, by simp [GraphicsPipelineBuilder.build, h1, h2, h3, h4]⟩
  by_cases h5 : b.scissors = []
  · exact ⟨BuilderError.noScissors,
      by simp [GraphicsPipelineBuilder.build, h1, h2, h3, h4, h5]⟩
  by_cases h6 : b.pipeline_layout = 0
  · refine ⟨BuilderError.nullPipelineLayout, ?_⟩
    simp only [GraphicsPipelineBuilder.build, if_neg h1, if_neg h2, if_neg h3]
    simp [h4, h5, h6]
    split <;> rfl
  · exfalso; tauto

/-- Concrete builder for the C8 witness: every mandatory axis set except
the pipeline layout. -/
def bMissingLayout : GraphicsPipelineBuilder :=
  { vertex_input_binding_descriptions := [1],
    vertex_input_attribute_descriptions := [2], viewports := [3], scissors := [4] }

/-- Witness for C8 at a concrete input: a builder with everything set
except the pipeline layout is rejected. -/
theorem build_rejects_missing_state_witness :
    bMissingLayout.pipeline_layout = 0 ∧
    ∃ e, bMissingLayout.build "pipeline" = Except.error e :=
  ⟨rfl, build_rejects_missing_state bMissingLayout "pipeline" (by simp [bMissingLayout])⟩

/-- A builder state with every mandatory axis set and, in addition, one
accumulated shader stage, one color-blend attachment, one push-constant
range and a non-null descriptor-set layout. -/
def bAccum : GraphicsPipelineBuilder :=
  { GraphicsPipelineBuilder.init with
    shader_stages := [7]
    vertex_input_binding_descriptions := [1]
    vertex_input_attribute_descriptions := [2]
    viewports := [3]
    scissors := [4]
    pipeline_layout := 5
    color_blend_attachment_states := [6]
    push_constant_ranges := [8]
    descriptor_set_layout := 9 }

/-- C3 (demonstrated code bug): `build` succeeds on `bAccum`, but the
builder state it leaves behind is NOT the post-construction state:
`reset()` never clears `m_shader_stages`,
`m_color_blend_attachment_states`, `m_push_constant_ranges` or
`m_descriptor_set_layout`, contradicting the class's own documentation
that `reset()` resets "all data" / that all members are initialised in
`reset()`. -/
theorem build_does_not_reset_all_fields :
    (builderAfterBuild bAccum "graphics pipeline").map (·.shader_stages) = some [7] ∧
    GraphicsPipelineBuilder.init.shader_stages = [] ∧
    (builderAfterBuild bAccum "graphics pipeline").map (·.color_blend_attachment_states) =
      some [6] ∧
    GraphicsPipelineBuilder.init.color_blend_attachment_states = [] ∧
    (builderAfterBuild bAccum "graphics pipeline").map (·.push_constant_ranges) = some [8] ∧
    GraphicsPipelineBuilder.init.push_constant_ranges = [] ∧
    (builderAfterBuild bAccum "graphics pipeline").map (·.descriptor_set_layout) = some 9 ∧
    GraphicsPipelineBuilder.init.descriptor_set_layout = 0 ∧
    builderAfterBuild bAccum "graphics pipeline" ≠ some GraphicsPipelineBuilder.init := by
  refine ⟨rfl, rfl, rfl, rfl, rfl, rfl, rfl, rfl, ?_⟩
  intro hcontra
  have h1 : (builderAfterBuild bAccum "graphics pipeline").map (·.shader_stages) =
      some [7] := rfl
  rw [hcontra] at h1
  simp [GraphicsPipelineBuilder.init, GraphicsPipelineBuilder.reset] at h1

end VkRender

namespace VkRender

/-! ### Dynamic buffer updates (`RenderGraph::update_dynamic_buffers`) -/

/-- Modelled from the spec: `BufferResource::request_update(data)` is
declared in the render-graph header, which is not among the provided
source files; per the spec it is the resource's sole write path and
"must ... mark the resource dirty and stage new bytes/size". -/
def request_update (r : BufferResource) (d : List Nat) : BufferResource :=
  { r with data := d, data_size := d.length, data_upload_needed := true }

/-- One loop iteration of `RenderGraph::update_dynamic_buffers` for one
buffer resource: if the dirty flag `m_data_upload_needed` is set, the
old physical buffer is destroyed (`m_buffer.reset()`), a new
`wrapper::Buffer` is constructed with the staged size, data and the
usage-derived flags, and the dirty flag is cleared; otherwise nothing
happens.  `ctr` supplies the identity of a freshly constructed buffer
object; the returned list holds the identities of the buffers uploaded
in this step (one entry per `wrapper::Buffer` construction). -/
def update_buffer_resource (ctr : Nat) (r : BufferResource) :
    BufferResource × Nat × List Nat :=
  if r.data_upload_needed then
    let newBuf : WBuffer :=
      { id := ctr, size := r.data_size, data := r.data
        usage_flags := if r.usage = BufferUsage.VERTEX_BUFFER then
            VK_BUFFER_USAGE_VERTEX_BUFFER_BIT
          else VK_BUFFER_USAGE_INDEX_BUFFER_BIT }
    ({ r with physical := { buffer := some newBuf }, data_upload_needed := false },
     ctr + 1, [ctr])
  else (r, ctr, [])

/-- The `RenderGraph::update_dynamic_buffers`: one pass over all registered
buffer resources, applying `update_buffer_resource` to each.  Returns
the updated resources, the next fresh identity, and (aligned with the
resource list) the per-resource upload lists, so that "at most one
upload per frame per resource" is the statement that every aligned
entry has length at most one. -/
def update_dynamic_buffers : List BufferResource → Nat →
    List BufferResource × Nat × List (List Nat)
  | [], ctr => ([], ctr, [])
  | r :: rs, ctr =>
    let step := update_buffer_resource ctr r
    let rest := update_dynamic_buffers rs step.2.1
    (step.1 :: rest.1, rest.2.1, step.2.2 :: rest.2.2)

end VkRender

namespace VkRender

/-- C4: (i) updating a buffer resource whose dirty flag is not set
leaves its physical backing unchanged and uploads nothing; (ii) after
`request_update(d)`, the next update performs exactly one upload, by
constructing a fresh physical buffer (distinct from the old one) holding
the staged data, and clears the dirty flag, and the update after that
performs no upload and leaves the backing unchanged; (iii) one update
pass performs at most one upload per resource. -/
theorem dirty_buffer_update_once (r : BufferResource) (d : List Nat) (ctr : Nat)
    (hfresh : ∀ ob, r.physical.buffer = some ob → ob.id < ctr) :
    (r.data_upload_needed = false →
      update_buffer_resource ctr r = (r, ctr, [])) ∧
    (let r1 := request_update r d
     let step1 := update_buffer_resource ctr r1
     let step2 := update_buffer_resource step1.2.1 step1.1
     step1.2.2 = [ctr] ∧
     step1.1.data_upload_needed = false ∧
     step1.1.physical.buffer = some
       { id := ctr, size := d.length, data := d
         usage_flags := if r.usage = BufferUsage.VERTEX_BUFFER then
             VK_BUFFER_USAGE_VERTEX_BUFFER_BIT
           else VK_BUFFER_USAGE_INDEX_BUFFER_BIT } ∧
     (∀ ob, r.physical.buffer = some ob → step1.1.physical.buffer ≠ some ob) ∧
     step2.2.2 = [] ∧ step2.1.physical = step1.1.physical) ∧
    (∀ rs ctr0, ∀ l ∈ (update_dynamic_buffers rs ctr0).2.2, l.length ≤ 1) := by
  refine ⟨?_, ?_, ?_⟩
  · intro hdirty
    simp [update_buffer_resource, hdirty]
  · refine ⟨?_, ?_, ?_, ?_, ?_, ?_⟩
    · simp [update_buffer_resource, request_update]
    · simp [update_buffer_resource, request_update]
    · simp [update_buffer_resource, request_update]
    · intro ob hob hcontra
      have hid := hfresh ob hob
      have hstep : (update_buffer_resource ctr (request_update r d)).1.physical.buffer =
          some { id := ctr, size := d.length, data := d
                 usage_flags := if r.usage = BufferUsage.VERTEX_BUFFER then
                     VK_BUFFER_USAGE_VERTEX_BUFFER_BIT
                   else VK_BUFFER_USAGE_INDEX_BUFFER_BIT } := by
        simp [update_buffer_resource, request_update]
      rw [hstep] at hcontra
      have hob2 := Option.some.inj hcontra
      have : ob.id = ctr := by rw [← hob2]
      omega
    · simp [update_buffer_resource, request_update]
    · simp [update_buffer_resource, request_update]
  · intro rs
    induction rs with
    | nil => intro ctr0 l hl; simp [update_dynamic_buffers] at hl
    | cons r0 rs ih =>
      intro ctr0 l hl
      simp only [update_dynamic_buffers] at hl
      rcases List.mem_cons.mp hl with h | h
      · subst h
        by_cases hd : r0.data_upload_needed <;> simp [update_buffer_resource, hd]
      · exact ih _ l h

/-- Concrete vertex-buffer resource for the C4 witness: it already has a
physical buffer of identity 0. -/
def rVertexBuf : BufferResource :=
  { physical := { buffer := some { id := 0, size := 1, data := [5],
                                   usage_flags := VK_BUFFER_USAGE_VERTEX_BUFFER_BIT } } }

/-- Witness for C4 at a concrete input: `rVertexBuf` with fresh
counter 1 — one `request_update` yields exactly one upload. -/
theorem dirty_buffer_update_once_witness :
    (∀ ob, rVertexBuf.physical.buffer = some ob → ob.id < 1) ∧
    (update_buffer_resource 1 (request_update rVertexBuf [9, 9])).2.2 = [1] := by
  have h := dirty_buffer_update_once rVertexBuf [9, 9] 1
    (by intro ob hob; cases hob; decide)
  have h2 := h.2
  simp only at h2
  exact ⟨by intro ob hob; cases hob; decide, h2.1.1⟩

end VkRender

namespace VkRender

/-! ### Per-frame command recording (`RenderGraph::record_command_buffer`,
`RenderGraph::render`) -/

/-- The GPU commands that `record_command_buffer` can emit through the
`wrapper::CommandBuffer`, identified by the ids involved. -/
inductive Cmd
  | beginRenderPass (stage : Nat)
  | bindIndexBuffer (res : Nat)
  | bindVertexBuffers (res : List Nat)
  | bindPipeline (stage : Nat)
  | onRecord (stage : Nat)
  | endRenderPass
  | fullBarrier
  deriving DecidableEq, Repr

/-- Whether resource `r` is, for stage recording, an index-buffer read
with a non-null physical buffer (the loop skips non-buffer resources and
buffers whose `m_physical->m_buffer` is null). -/
def isBoundIndexRead (g : RenderGraphModel) (r : Nat) : Bool :=
  match resInfo g r with
  | some (ResourceInfo.buffer BufferUsage.INDEX_BUFFER true) => true
  | _ => false

/-- Whether resource `r` is a vertex-buffer read with a non-null
physical buffer. -/
def isBoundVertexRead (g : RenderGraphModel) (r : Nat) : Bool :=
  match resInfo g r with
  | some (ResourceInfo.buffer BufferUsage.VERTEX_BUFFER true) => true
  | _ => false

/-- The index-buffer resources among stage `s`'s reads, in read order. -/
def indexReads (g : RenderGraphModel) (s : Nat) : List Nat :=
  (stageAt g s).reads.filter (isBoundIndexRead g)

/-- The vertex-buffer resources among stage `s`'s reads, in read order
(the `vertex_buffers` vector gathered by the loop). -/
def vertexReads (g : RenderGraphModel) (s : Nat) : List Nat :=
  (stageAt g s).reads.filter (isBoundVertexRead g)

/-- The `RenderGraph::record_command_buffer` for one stage: begin the render
pass (graphics stages only), bind each index-buffer read individually
(emitted inside the read loop, so all of them precede the vertex
multi-bind), bind all gathered vertex buffers in one call unless none
were gathered, bind the pipeline, invoke the record callback, end the
render pass (graphics stages only), and place a full barrier. -/
def record_command_buffer (g : RenderGraphModel) (s : Nat) : List Cmd :=
  (if (stageAt g s).is_graphics then [Cmd.beginRenderPass s] else [])
    ++ (indexReads g s).map Cmd.bindIndexBuffer
    ++ (if (vertexReads g s).isEmpty then [] else [Cmd.bindVertexBuffers (vertexReads g s)])
    ++ [Cmd.bindPipeline s, Cmd.onRecord s]
    ++ (if (stageAt g s).is_graphics then [Cmd.endRenderPass] else [])
    ++ [Cmd.fullBarrier]

/-- The commands recorded by `RenderGraph::render`: one
`record_command_buffer` block per entry of `m_stage_stack`, in order. -/
def renderCmds (g : RenderGraphModel) (stack : List Nat) : List Cmd :=
  stack.flatMap (record_command_buffer g)

/-- Every stage's recorded block ends with the full barrier. -/
theorem record_block_ends_with_barrier (g : RenderGraphModel) (t : Nat) :
    (record_command_buffer g t).getLast? = some Cmd.fullBarrier := by
  unfold record_command_buffer
  rw [List.getLast?_concat]

end VkRender

namespace VkRender

/-- C5: for a graphics pass all of whose buffer reads are backed and
that reads at least one vertex buffer, the recorded command sequence is
exactly: begin render target, each read index buffer bound individually,
all read vertex buffers in one multi-bind call, bind pipeline, record
callback, end render target, full barrier; and the barrier ends every
pass's block, including the last one of the frame. -/
theorem record_pass_command_sequence (g : RenderGraphModel) (s : Nat)
    (stack : List Nat) (hgfx : (stageAt g s).is_graphics = true)
    (hvb : vertexReads g s ≠ []) (hstack : stack ≠ []) :
    record_command_buffer g s =
      [Cmd.beginRenderPass s] ++ (indexReads g s).map Cmd.bindIndexBuffer
        ++ [Cmd.bindVertexBuffers (vertexReads g s)]
        ++ [Cmd.bindPipeline s, Cmd.onRecord s, Cmd.endRenderPass, Cmd.fullBarrier] ∧
    (∀ t, (record_command_buffer g t).getLast? = some Cmd.fullBarrier) ∧
    (renderCmds g stack).getLast? = some Cmd.fullBarrier := by
  refine ⟨?_, record_block_ends_with_barrier g, ?_⟩
  · unfold record_command_buffer
    rw [hgfx]
    have : (vertexReads g s).isEmpty = false := by
      cases hv : vertexReads g s with
      | nil => exact absurd hv hvb
      | cons a l => simp
    rw [this]
    simp
  · induction stack with
    | nil => exact absurd rfl hstack
    | cons t ts ih =>
      cases ts with
      | nil =>
        show (renderCmds g [t]).getLast? = some Cmd.fullBarrier
        unfold renderCmds
        simp [record_block_ends_with_barrier g t]
      | cons u us =>
        have hrest := ih (by simp)
        show (record_command_buffer g t ++ renderCmds g (u :: us)).getLast? =
          some Cmd.fullBarrier
        rw [List.getLast?_append, hrest]
        rfl

/-- Concrete graph for the C5 witness: one graphics stage reading a
backed index buffer (id 3) and a backed vertex buffer (id 4), writing
the back buffer (id 5). -/
def gRecord : RenderGraphModel :=
  { stages := [{ reads := [3, 4], writes := [5], clears_screen := true }]
    resources := [(3, ResourceInfo.buffer BufferUsage.INDEX_BUFFER true),
                  (4, ResourceInfo.buffer BufferUsage.VERTEX_BUFFER true),
                  (5, ResourceInfo.texture TextureUsage.BACK_BUFFER 44)] }

/-- Witness for C5 at a concrete input. -/
theorem record_pass_command_sequence_witness :
    (stageAt gRecord 0).is_graphics = true ∧ vertexReads gRecord 0 ≠ [] ∧
    record_command_buffer gRecord 0 =
      [Cmd.beginRenderPass 0, Cmd.bindIndexBuffer 3, Cmd.bindVertexBuffers [4],
       Cmd.bindPipeline 0, Cmd.onRecord 0, Cmd.endRenderPass, Cmd.fullBarrier] := by
  have h := record_pass_command_sequence gRecord 0 [0] (by decide) (by decide) (by decide)
  refine ⟨by decide, by decide, ?_⟩
  rw [h.1]
  decide

end VkRender

namespace VkRender

/-- Concrete graph exhibiting duplication: stage 0 writes resource 30,
stages 1 and 2 both read resource 30 and write the target resource 31
(all textures; ids are arbitrary). -/
def gDup : RenderGraphModel :=
  { stages := [{ writes := [30] },
               { reads := [30], writes := [31] },
               { reads := [30], writes := [31] }]
    resources := [(30, ResourceInfo.texture TextureUsage.NORMAL 44),
                  (31, ResourceInfo.texture TextureUsage.BACK_BUFFER 44)] }

/-- C9: `compile(target)` is not idempotent and the execution order is
not duplicate-free.  On `gDup`, one compile with empty `m_stage_stack`
produces [0, 1, 0, 2] — the writer stage 0 appears once per visit, twice
within a single compile; compiling a second time on the same instance
appends a second copy of the order; and `render()` on the doubled stack
records stage 0 four times per frame, twice as often as after a single
compile. -/
theorem compile_duplicates_stages :
    compileStack gDup 31 4 [] = some [0, 1, 0, 2] ∧
    List.count 0 [0, 1, 0, 2] = 2 ∧
    compileStack gDup 31 4 [0, 1, 0, 2] = some [0, 1, 0, 2, 0, 1, 0, 2] ∧
    (renderCmds gDup [0, 1, 0, 2, 0, 1, 0, 2]).count (Cmd.onRecord 0) = 4 ∧
    (renderCmds gDup [0, 1, 0, 2, 0, 1, 0, 2]).count (Cmd.onRecord 0) =
      2 * (renderCmds gDup [0, 1, 0, 2]).count (Cmd.onRecord 0) := by
  refine ⟨by decide, by decide, by decide, by decide, by decide⟩

/-- Concrete cyclic graph: stage 0 reads resource 10 and writes
resource 11; stage 1 reads resource 11 and writes resource 10.  Each is
the only writer of what the other reads. -/
def gCycle : RenderGraphModel :=
  { stages := [{ reads := [10], writes := [11] },
               { reads := [11], writes := [10] }]
    resources := [(10, ResourceInfo.texture TextureUsage.NORMAL 44),
                  (11, ResourceInfo.texture TextureUsage.NORMAL 44)] }

/-- C2 (demonstrated code bug): on the cyclic graph `gCycle`,
`compile(11)` recurses `dfs(0) → dfs(1) → dfs(0) → …` without
termination — no recursion-depth bound ever suffices, so the model
returns `none` for every fuel — instead of failing with a configuration
error as the claim requires. -/
theorem compile_cycle_never_terminates (fuel : Nat) :
    compileOrder gCycle 11 fuel = none := by
  have key : ∀ f, dfsList gCycle f [0] = none ∧ dfsList gCycle f [1] = none := by
    intro f
    induction f with
    | zero => exact ⟨rfl, rfl⟩
    | succ f ih =>
      constructor
      · show dfsList gCycle (f + 1) [0] = none
        have hdeps : (stageAt gCycle 0).reads.flatMap (writersOf gCycle) = [1] := by decide
        simp only [dfsList, hdeps, ih.2]
      · show dfsList gCycle (f + 1) [1] = none
        have hdeps : (stageAt gCycle 1).reads.flatMap (writersOf gCycle) = [0] := by decide
        simp only [dfsList, hdeps, ih.1]
  have hw : writersOf gCycle 11 = [0] := by decide
  unfold compileOrder
  rw [hw]
  exact (key fuel).1

end VkRender

namespace VkRender

/-! ### Topological validity of the compiled order (C1) -/

/-- Helper formulation of the ordering property: walking `l` with the
stages already emitted accumulated in `seen`, every stage's writers (for
each of its reads) must already have been emitted. -/
def validOrderAux (g : RenderGraphModel) : List Nat → List Nat → Prop
  | _, [] => True
  | seen, s :: rest =>
    (∀ r ∈ (stageAt g s).reads, ∀ w ∈ writersOf g r, w ∈ seen) ∧
      validOrderAux g (seen ++ [s]) rest

theorem validOrderAux_mono (g : RenderGraphModel) (l : List Nat) :
    ∀ seen seen' : List Nat, seen ⊆ seen' → validOrderAux g seen l →
      validOrderAux g seen' l := by
  induction l with
  | nil => intro seen seen' hsub h; trivial
  | cons s rest ih =>
    intro seen seen' hsub h
    refine ⟨fun r hr w hw => hsub (h.1 r hr w hw), ?_⟩
    refine ih (seen ++ [s]) (seen' ++ [s]) ?_ h.2
    intro a ha
    rcases List.mem_append.mp ha with ha | ha
    · exact List.mem_append_left _ (hsub ha)
    · exact List.mem_append_right _ ha

theorem validOrderAux_append (g : RenderGraphModel) (l1 : List Nat) :
    ∀ (seen l2 : List Nat), validOrderAux g seen l1 →
      validOrderAux g (seen ++ l1) l2 → validOrderAux g seen (l1 ++ l2) := by
  induction l1 with
  | nil => intro seen l2 h1 h2; simpa using h2
  | cons s rest ih =>
    intro seen l2 h1 h2
    refine ⟨h1.1, ?_⟩
    refine ih (seen ++ [s]) l2 h1.2 ?_
    have : seen ++ s :: rest = (seen ++ [s]) ++ rest := by simp
    rw [this] at h2
    exact h2

theorem validOrderAux_take (g : RenderGraphModel) (l : List Nat) :
    ∀ seen : List Nat, validOrderAux g seen l →
      ∀ i, (h : i < l.length) → ∀ r ∈ (stageAt g (l.get ⟨i, h⟩)).reads,
        ∀ w ∈ writersOf g r, w ∈ seen ++ l.take i := by
  induction l with
  | nil => intro seen hv i h; exact absurd h (by simp)
  | cons s rest ih =>
    intro seen hv i h r hr w hw
    cases i with
    | zero => simpa using hv.1 r hr w hw
    | succ i =>
      have hmem := ih (seen ++ [s]) hv.2 i (by simpa using h) r hr w hw
      have : seen ++ (s :: rest).take (i + 1) = (seen ++ [s]) ++ rest.take i := by simp
      rw [this]
      exact hmem

theorem validOrder_of_validOrderAux (g : RenderGraphModel) (l : List Nat)
    (h : validOrderAux g [] l) : validOrder g l := by
  intro i hi r hr w hw
  simpa using validOrderAux_take g l [] h i hi r hr w hw

end VkRender

namespace VkRender

theorem dfsList_valid (g : RenderGraphModel) :
    ∀ fuel ws l, dfsList g fuel ws = some l →
      (∀ seen, validOrderAux g seen l) ∧ ∀ w ∈ ws, w ∈ l := by
  intro fuel
  induction fuel with
  | zero =>
    intro ws l h
    cases ws with
    | nil => cases h; exact ⟨fun seen => trivial, by simp⟩
    | cons s ss => exact absurd h (by simp [dfsList])
  | succ f ih =>
    intro ws l h
    cases ws with
    | nil => cases h; exact ⟨fun seen => trivial, by simp⟩
    | cons s ss =>
      simp only [dfsList] at h
      split at h
      · exact absurd h (by simp)
      case h_2 l1 h1 =>
        split at h
        · exact absurd h (by simp)
        case h_2 l2 h2 =>
          injection h with h
          subst h
          obtain ⟨hv1, hm1⟩ := ih _ _ h1
          obtain ⟨hv2, hm2⟩ := ih _ _ h2
          constructor
          · intro seen
            refine validOrderAux_append g (l1 ++ [s]) seen l2 ?_ (hv2 _)
            refine validOrderAux_append g l1 seen [s] (hv1 _) ?_
            refine ⟨?_, trivial⟩
            intro r hr w hw
            have hd : w ∈ (stageAt g s).reads.flatMap (writersOf g) :=
              List.mem_flatMap.mpr ⟨r, hr, hw⟩
            exact List.mem_append_right _ (hm1 w hd)
          · intro w hw
            rcases List.mem_cons.mp hw with hw | hw
            · subst hw
              exact List.mem_append_left _ (List.mem_append_right _ (by simp))
            · exact List.mem_append_right _ (hm2 w hw)

end VkRender

namespace VkRender

theorem dfsList_mono (g : RenderGraphModel) :
    ∀ fuel ws l, dfsList g fuel ws = some l → dfsList g (fuel + 1) ws = some l := by
  intro fuel
  induction fuel with
  | zero =>
    intro ws l h
    cases ws with
    | nil => cases h; rfl
    | cons s ss => exact absurd h (by simp [dfsList])
  | succ f ih =>
    intro ws l h
    cases ws with
    | nil => cases h; rfl
    | cons s ss =>
      simp only [dfsList] at h ⊢
      split at h
      · exact absurd h (by simp)
      case h_2 l1 h1 =>
        split at h
        · exact absurd h (by simp)
        case h_2 l2 h2 =>
          rw [ih _ _ h1, ih _ _ h2]
          exact h

theorem dfsList_mono_le (g : RenderGraphModel) (fuel fuel' : Nat) (hle : fuel ≤ fuel')
    (ws l : List Nat) (h : dfsList g fuel ws = some l) : dfsList g fuel' ws = some l := by
  induction fuel', hle using Nat.le_induction with
  | base => exact h
  | succ n hn ih => exact dfsList_mono g n ws l ih

theorem dfsList_nil (g : RenderGraphModel) (fuel : Nat) : dfsList g fuel [] = some [] := by
  cases fuel <;> rfl

theorem dfsList_append_fuel (g : RenderGraphModel) :
    ∀ (ws1 ws2 : List Nat) (fuel : Nat) (l1 l2 : List Nat),
      dfsList g fuel ws1 = some l1 → dfsList g fuel ws2 = some l2 →
      dfsList g (fuel + ws1.length) (ws1 ++ ws2) = some (l1 ++ l2) := by
  intro ws1
  induction ws1 with
  | nil =>
    intro ws2 fuel l1 l2 h1 h2
    rw [dfsList_nil] at h1
    injection h1 with h1
    subst h1
    simpa using h2
  | cons s ss ih =>
    intro ws2 fuel l1 l2 h1 h2
    cases fuel with
    | zero => exact absurd h1 (by simp [dfsList])
    | succ f =>
      simp only [dfsList] at h1
      split at h1
      · exact absurd h1 (by simp)
      case h_2 la hla =>
        split at h1
        · exact absurd h1 (by simp)
        case h_2 lb hlb =>
          injection h1 with h1
          subst h1
          have hss : dfsList g (f + 1) ss = some lb := dfsList_mono g f ss lb hlb
          have htail := ih ws2 (f + 1) lb l2 hss h2
          have htail' : dfsList g (f + ss.length + 1) (ss ++ ws2) = some (lb ++ l2) := by
            have he : f + 1 + ss.length = f + ss.length + 1 := by omega
            rwa [he] at htail
          have hdeps : dfsList g (f + ss.length + 1)
              ((stageAt g s).reads.flatMap (writersOf g)) = some la :=
            dfsList_mono_le g f (f + ss.length + 1) (by omega) _ la hla
          have harith : f + 1 + (s :: ss).length = (f + ss.length + 1) + 1 := by
            simp only [List.length_cons]
            omega
          rw [harith]
          show dfsList g ((f + ss.length + 1) + 1) (s :: (ss ++ ws2)) =
            some (la ++ [s] ++ lb ++ l2)
          simp only [dfsList, hdeps, htail']
          simp

end VkRender

namespace VkRender

theorem default_stage_reads : (default : Stage).reads = [] := rfl

theorem stageAt_oob (g : RenderGraphModel) (s : Nat) (h : g.stages.length ≤ s) :
    stageAt g s = default := by
  unfold stageAt
  exact List.getD_eq_default _ _ h

theorem mem_writersOf_lt (g : RenderGraphModel) (r w : Nat) (h : w ∈ writersOf g r) :
    w < g.stages.length := by
  unfold writersOf at h
  rw [List.mem_flatMap] at h
  obtain ⟨i, hi, hw⟩ := h
  rw [List.mem_filterMap] at hw
  obtain ⟨x, _, hxw⟩ := hw
  by_cases hxr : x = r
  · simp only [hxr, if_pos] at hxw
    injection hxw with hxw
    subst hxw
    exact List.mem_range.mp hi
  · simp [hxr] at hxw

theorem dependsB_of_mem (g : RenderGraphModel) {s r w : Nat}
    (hr : r ∈ (stageAt g s).reads) (hw : w ∈ writersOf g r) : dependsB g s w = true := by
  unfold dependsB
  rw [List.any_eq_true]
  exact ⟨r, hr, by simpa using hw⟩

theorem dependsB_lt (g : RenderGraphModel) (s w : Nat) (h : dependsB g s w = true) :
    s < g.stages.length ∧ w < g.stages.length := by
  unfold dependsB at h
  rw [List.any_eq_true] at h
  obtain ⟨r, hr, hc⟩ := h
  have hw : w ∈ writersOf g r := by simpa using hc
  constructor
  · by_contra hs
    push_neg at hs
    rw [stageAt_oob g s hs, default_stage_reads] at hr
    simp at hr
  · exact mem_writersOf_lt g r w hw

theorem dfsList_total_of_singletons (g : RenderGraphModel) :
    ∀ ws : List Nat, (∀ w ∈ ws, ∃ fuel l, dfsList g fuel [w] = some l) →
      ∃ fuel l, dfsList g fuel ws = some l := by
  intro ws
  induction ws with
  | nil => exact fun _ => ⟨0, [], rfl⟩
  | cons w ws ih =>
    intro h
    obtain ⟨f1, l1, h1⟩ := h w (List.mem_cons_self w ws)
    obtain ⟨f2, l2, h2⟩ := ih fun x hx => h x (List.mem_cons_of_mem _ hx)
    have h1' : dfsList g (max f1 f2) [w] = some l1 :=
      dfsList_mono_le g f1 (max f1 f2) (Nat.le_max_left _ _) _ l1 h1
    have h2' : dfsList g (max f1 f2) ws = some l2 :=
      dfsList_mono_le g f2 (max f1 f2) (Nat.le_max_right _ _) _ l2 h2
    have := dfsList_append_fuel g [w] ws (max f1 f2) l1 l2 h1' h2'
    exact ⟨max f1 f2 + 1, l1 ++ l2, by simpa using this⟩

theorem dfsList_singleton_total (g : RenderGraphModel) (rank : Nat → Nat)
    (hrank : ∀ s w, dependsB g s w = true → rank w < rank s) :
    ∀ n s, rank s ≤ n → ∃ fuel l, dfsList g fuel [s] = some l := by
  intro n
  induction n using Nat.strong_induction_on with
  | _ n ih =>
    intro s hs
    have hdeps : ∀ w ∈ (stageAt g s).reads.flatMap (writersOf g),
        ∃ fuel l, dfsList g fuel [w] = some l := by
      intro w hw
      rw [List.mem_flatMap] at hw
      obtain ⟨r, hr, hwr⟩ := hw
      have hd := dependsB_of_mem g hr hwr
      have hlt : rank w < n := Nat.lt_of_lt_of_le (hrank s w hd) hs
      exact ih (rank w) hlt w (Nat.le_refl _)
    obtain ⟨F, ld, hF⟩ := dfsList_total_of_singletons g _ hdeps
    refine ⟨F + 1, ld ++ [s] ++ [], ?_⟩
    simp only [dfsList, hF, dfsList_nil]

theorem compileOrder_total (g : RenderGraphModel) (target : Nat) (hA : Acyclic g) :
    ∃ fuel order, compileOrder g target fuel = some order := by
  obtain ⟨rank, hrank⟩ := hA
  have h : ∀ w ∈ writersOf g target, ∃ fuel l, dfsList g fuel [w] = some l :=
    fun w _ => dfsList_singleton_total g rank hrank (rank w) w (Nat.le_refl _)
  obtain ⟨fuel, l, hl⟩ := dfsList_total_of_singletons g _ h
  exact ⟨fuel, l, hl⟩

end VkRender

namespace VkRender

/-- C1: for every acyclic pass/resource graph, `compile(target)`
terminates for some recursion budget and produces an execution order in
which, for every pass and every resource it reads, every writer of that
resource appears at an earlier position; moreover every order the DFS
produces (whatever the budget) has this property. -/
theorem compile_topological_order (g : RenderGraphModel) (target : Nat)
    (hA : Acyclic g) :
    (∃ fuel order, compileOrder g target fuel = some order ∧ validOrder g order) ∧
    (∀ fuel order, compileOrder g target fuel = some order → validOrder g order) := by
  have hval : ∀ fuel order, compileOrder g target fuel = some order → validOrder g order := by
    intro fuel order h
    exact validOrder_of_validOrderAux g order ((dfsList_valid g fuel _ order h).1 [])
  obtain ⟨fuel, order, h⟩ := compileOrder_total g target hA
  exact ⟨⟨fuel, order, h, hval fuel order h⟩, hval⟩

/-- Concrete acyclic graph for the C1 witness (the spec's two-pass
scenario): stage 0 writes texture 20, stage 1 reads texture 20 and
writes the back buffer 21. -/
def gTopo : RenderGraphModel :=
  { stages := [{ writes := [20] }, { reads := [20], writes := [21] }]
    resources := [(20, ResourceInfo.texture TextureUsage.NORMAL 44),
                  (21, ResourceInfo.texture TextureUsage.BACK_BUFFER 44)] }

/-- Witness for C1 at a concrete input. -/
theorem compile_topological_order_witness :
    Acyclic gTopo ∧
    (∃ fuel order, compileOrder gTopo 21 fuel = some order ∧ validOrder gTopo order) := by
  have hA : Acyclic gTopo := by
    refine ⟨fun s => s, ?_⟩
    intro s w h
    obtain ⟨hs, hw⟩ := dependsB_lt gTopo s w h
    have hs2 : s < 2 := by simpa [gTopo] using hs
    have hw2 : w < 2 := by simpa [gTopo] using hw
    interval_cases s <;> interval_cases w <;> revert h <;> decide
  exact ⟨hA, (compile_topological_order gTopo 21 hA).1⟩

end VkRender

namespace VkRender

/-! ### GPU-object creation order during `RenderGraph::compile` (C7)

`compile` is modelled as a trace of GPU object creations: the physical
images allocated for non-back-buffer textures, then per compiled stage
the render pass, the pipeline layout and the graphics pipeline.
Framebuffer creation (which follows pipeline creation for each stage) is
not modelled; it cannot precede the error considered here. -/

/-- GPU object-creation calls issued during `compile`. -/
inductive Event
  | createImage (res : Nat)
  | createRenderPass (stage : Nat)
  | createPipelineLayout (stage : Nat)
  | createPipeline (stage : Nat)
  deriving DecidableEq, Repr

/-- The error raised during `compile` that is modelled here:
`std::unordered_map::at` throwing in `build_graphics_pipeline` because a
non-index buffer resource read by the stage has no entry in the stage's
`m_buffer_bindings`. -/
inductive CompileError
  | missingBinding (stage : Nat) (res : Nat)
  deriving DecidableEq, Repr

/-- Lookup of `m_buffer_bindings` for a resource. -/
def bindingOf (st : Stage) (r : Nat) : Option Nat :=
  (st.buffer_bindings.find? (fun p => p.1 == r)).map (·.2)

/-- The first resource (in read order) on which
`build_graphics_pipeline`'s `m_buffer_bindings.at(buffer_resource)`
throws for stage `s`: a buffer resource that is not an index buffer and
has no binding entry.  (Index buffers are skipped by the loop; texture
reads are skipped by the `as<BufferResource>()` test.) -/
def firstMissingBinding (g : RenderGraphModel) (s : Nat) : Option Nat :=
  (stageAt g s).reads.findSome? fun r =>
    match resInfo g r with
    | some (ResourceInfo.buffer u _) =>
      if u = BufferUsage.INDEX_BUFFER then none
      else if (bindingOf (stageAt g s) r).isSome then none else some r
    | _ => none

/-- GPU creations of the physical-resource allocation phase of
`compile`: a `wrapper::Image` for every non-back-buffer texture
resource (buffers and the back buffer allocate no GPU object there). -/
def allocEvents (g : RenderGraphModel) : List Event :=
  g.resources.filterMap fun p =>
    match p.2 with
    | ResourceInfo.texture usage _ =>
      if usage = TextureUsage.BACK_BUFFER then none else some (Event.createImage p.1)
    | _ => none

/-- The per-stage phase of `compile` over the compiled order: for each
graphics stage, `build_render_pass` (creates the render pass), then
`build_pipeline_layout` (creates the pipeline layout), then
`build_graphics_pipeline`, which either throws on a missing binding —
ending compilation — or creates the pipeline. -/
def stageLoop (g : RenderGraphModel) : List Nat → List Event × Option CompileError
  | [] => ([], none)
  | s :: rest =>
    if (stageAt g s).is_graphics then
      match firstMissingBinding g s with
      | some r =>
        ([Event.createRenderPass s, Event.createPipelineLayout s],
         some (CompileError.missingBinding s r))
      | none =>
        let tail := stageLoop g rest
        ([Event.createRenderPass s, Event.createPipelineLayout s,
          Event.createPipeline s] ++ tail.1, tail.2)
    else stageLoop g rest

/-- The `RenderGraph::compile(target)` as a trace: the DFS, then physical
resource allocation, then the stage loop.  Returns the GPU creations
issued (up to the error, if any), the error, and the resulting order on
success. -/
def compileTrace (g : RenderGraphModel) (target fuel : Nat) :
    List Event × Option CompileError × Option (List Nat) :=
  match dfsList g fuel (writersOf g target) with
  | none => ([], none, none)
  | some order =>
    let sl := stageLoop g order
    (allocEvents g ++ sl.1, sl.2, if sl.2.isSome then none else some order)

/-- The claim's property at a graph: compilation fails with the
configuration error AND no GPU object-creation call was attempted
before it. -/
def failsBeforeAnyGpuCall (g : RenderGraphModel) (target fuel : Nat) : Prop :=
  ∃ e, (compileTrace g target fuel).2.1 = some e ∧ (compileTrace g target fuel).1 = []

/-- Stage `s` is a graphics stage that reads some non-index buffer
resource with no declared binding index. -/
def missingVertexBinding (g : RenderGraphModel) (s : Nat) : Prop :=
  (stageAt g s).is_graphics = true ∧ firstMissingBinding g s ≠ none

theorem stageLoop_fails (g : RenderGraphModel) :
    ∀ order : List Nat, (∃ s ∈ order, missingVertexBinding g s) →
      ∃ s r, (stageLoop g order).2 = some (CompileError.missingBinding s r) ∧
        Event.createRenderPass s ∈ (stageLoop g order).1 ∧
        Event.createPipelineLayout s ∈ (stageLoop g order).1 := by
  intro order
  induction order with
  | nil => rintro ⟨s, hs, -⟩; simp at hs
  | cons t rest ih =>
    rintro ⟨s, hs, hm⟩
    by_cases hg : (stageAt g t).is_graphics = true
    · cases hfm : firstMissingBinding g t with
      | some r =>
        refine ⟨t, r, ?_, ?_, ?_⟩ <;> simp [stageLoop, hg, hfm]
      | none =>
        have hsrest : s ∈ rest := by
          rcases List.mem_cons.mp hs with h | h
          · subst h; exact absurd hfm hm.2
          · exact h
        obtain ⟨s', r', h1, h2, h3⟩ := ih ⟨s, hsrest, hm⟩
        refine ⟨s', r', ?_, ?_, ?_⟩ <;>
          simp [stageLoop, hg, hfm, h1, h2, h3]
    · have hsrest : s ∈ rest := by
        rcases List.mem_cons.mp hs with h | h
        · subst h; exact absurd hm.1 hg
        · exact h
      obtain ⟨s', r', h1, h2, h3⟩ := ih ⟨s, hsrest, hm⟩
      refine ⟨s', r', ?_, ?_, ?_⟩ <;> simp [stageLoop, hg, h1, h2, h3]

end VkRender

namespace VkRender

/-- C7 (amended): if the compiled order contains a graphics stage with a
missing vertex-buffer binding index, `compile` does fail fast with the
configuration error (and produces no order), but the error is raised
during pipeline building of the offending stage — after that stage's
render pass and pipeline layout have already been created — not before
all GPU object-creation calls. -/
theorem compile_missing_binding_fails_during_pipeline_build (g : RenderGraphModel)
    (target fuel : Nat) (order : List Nat)
    (hord : compileOrder g target fuel = some order)
    (hmb : ∃ s ∈ order, missingVertexBinding g s) :
    ∃ s r, (compileTrace g target fuel).2.1 = some (CompileError.missingBinding s r) ∧
      (compileTrace g target fuel).2.2 = none ∧
      Event.createRenderPass s ∈ (compileTrace g target fuel).1 ∧
      Event.createPipelineLayout s ∈ (compileTrace g target fuel).1 := by
  obtain ⟨s, r, h1, h2, h3⟩ := stageLoop_fails g order hmb
  unfold compileOrder at hord
  refine ⟨s, r, ?_, ?_, ?_, ?_⟩ <;>
    simp [compileTrace, hord, h1, List.mem_append, h2, h3]

/-- Concrete graph for C7: a single graphics stage reads the vertex
buffer 20 without declaring a binding index for it and writes the back
buffer 21. -/
def gMB : RenderGraphModel :=
  { stages := [{ reads := [20], writes := [21] }]
    resources := [(20, ResourceInfo.buffer BufferUsage.VERTEX_BUFFER true),
                  (21, ResourceInfo.texture TextureUsage.BACK_BUFFER 44)] }

/-- C7 counterexample: on `gMB`, `compile(21)` does fail with the
missing-binding configuration error, but only after the stage's render
pass and pipeline layout have been created — the claim's "detected and
reported before any GPU object-creation call is attempted" is false. -/
theorem missing_binding_error_after_gpu_calls :
    (compileTrace gMB 21 2).2.1 = some (CompileError.missingBinding 0 20) ∧
    (compileTrace gMB 21 2).1 =
      [Event.createRenderPass 0, Event.createPipelineLayout 0] ∧
    ¬ failsBeforeAnyGpuCall gMB 21 2 := by
  refine ⟨by decide, by decide, ?_⟩
  rintro ⟨e, -, hev⟩
  exact absurd hev (by decide)

/-- Witness for the amended C7 theorem at the concrete graph `gMB`. -/
theorem compile_missing_binding_witness :
    compileOrder gMB 21 2 = some [0] ∧
    (∃ s ∈ [0], missingVertexBinding gMB s) ∧
    ∃ s r, (compileTrace gMB 21 2).2.1 = some (CompileError.missingBinding s r) ∧
      (compileTrace gMB 21 2).2.2 = none ∧
      Event.createRenderPass s ∈ (compileTrace gMB 21 2).1 ∧
      Event.createPipelineLayout s ∈ (compileTrace gMB 21 2).1 := by
  have hord : compileOrder gMB 21 2 = some [0] := by decide
  have hmb : ∃ s ∈ [0], missingVertexBinding gMB s := ⟨0, by decide, by decide, by decide⟩
  exact ⟨hord, hmb,
    compile_missing_binding_fails_during_pipeline_build gMB 21 2 [0] hord hmb⟩

end VkRender
